import Mathlib

/-!
Verification of the steam_tracker dashboard (src/streamlit_app.py).

The development shallowly embeds the core of the application: the
time-windowed cache (get_croatian_time / should_update_cache /
get_cache_key / get_cached_data / set_cached_data / load_steam_data),
the identity and curation helpers (get_game_id / is_game_favorited),
and the filter and sort pipeline of main.

Modelling conventions:
* Croatian local time is represented as a number of minutes since an
  epoch midnight (a Nat).  The code derives it from UTC with a fixed
  offset pair; the claims are all stated over the resulting local time,
  so the embedding takes the local time as the input.
* Calendar dates are represented by their day number (an Int, so that
  the day before day 0 is representable).  The code renders cache keys
  as the string "steam_data_" followed by the ISO date; ISO dates are
  fixed-width, so the string-equality and endswith tests of the code
  coincide with equality of the underlying dates, and keys are
  represented by the date itself.
* A pandas DataFrame is represented as a Catalog: a list of rows plus
  one presence flag per optional column (a sheet that lacks a column
  produces a frame without it, and the code tests membership in
  df.columns).  Cell values that may be NaN are Option-valued; the
  astype(str) coercion the code applies maps a missing value to the
  string "nan", as pandas does.
* pandas to_numeric/to_datetime with errors="coerce" are reflected by
  Option-valued fields: a raw value that fails coercion is none.
* Python dict assignment is modelled on association lists with
  lookup-first semantics; dict membership and deletion become filtering.
* Exceptions (KeyError on a missing column) are modelled with Except.
-/

namespace SteamTracker

/-- One catalog row (one game record), with the fields the core logic
touches.  Option-valued fields model cells that may be NaN/absent. -/
structure Row where
  appID : Option Int
  name : String
  communityTags : Option String := none
  demo : Bool := false
  isDemo : Bool := false
  releaseStatus : Option String := none
  dateAdded : Option Nat := none
  shortDescription : Option String := none
  detailedDescription : Option String := none
  aboutTheGame : Option String := none
  genres : Option String := none
  categories : Option String := none
deriving DecidableEq, Repr

/-- A DataFrame of catalog rows: the rows plus a presence flag for each
optional column the pipeline accesses through df.columns membership. -/
structure Catalog where
  hasCommunityTags : Bool := true
  hasDemo : Bool := true
  hasIsDemo : Bool := true
  hasReleaseStatus : Bool := true
  hasDateAdded : Bool := true
  rows : List Row
deriving DecidableEq, Repr

/-- pat occurs at the start of hay (on character lists). -/
def charsStartWith : (pat hay : List Char) → Bool
  | [], _ => true
  | _ :: _, [] => false
  | a :: as, b :: bs => a == b && charsStartWith as bs

/-- pat occurs somewhere inside hay (literal, not regex). -/
def charsContain : (hay pat : List Char) → Bool
  | [], pat => charsStartWith pat []
  | c :: t, pat => charsStartWith pat (c :: t) || charsContain t pat

/-- Case-insensitive literal substring test: pandas
str.contains(pat, case=False, regex=False), and the Python operator
in applied to lowercased strings.  Lowercasing is applied to the
character lists of both strings. -/
def strContains (hay pat : String) : Bool :=
  charsContain (hay.data.map Char.toLower) (pat.data.map Char.toLower)

/-- astype(str) applied to a CommunityTags cell: a NaN cell becomes the
literal string "nan". -/
def rowTagsStr (r : Row) : String :=
  match r.communityTags with
  | some s => s
  | none => "nan"

/-! ## Croatian local time (minutes since an epoch midnight) -/

/-- Calendar day number of a local time. -/
def dayOf (t : Nat) : Nat := t / 1440

/-- Hour of day (0..23) of a local time: croatia_time.hour. -/
def hourOf (t : Nat) : Nat := t % 1440 / 60

/-- Date used as the cache key, from get_cache_key: today when the
local hour is at least 20, otherwise yesterday.  An Int so that the
day before day 0 exists. -/
def cacheKey (t : Nat) : Int :=
  if 20 ≤ hourOf t then (dayOf t : Int) else (dayOf t : Int) - 1

/-- Today at 20:00, in minutes:
croatia_time.replace(hour=20, minute=0, second=0, microsecond=0). -/
def today20 (t : Nat) : Nat := dayOf t * 1440 + 1200

/-! ## The session cache -/

/-- One stored cache entry: the dict with keys data and timestamp. -/
structure CacheEntry where
  data : List Row
  timestamp : Nat
deriving DecidableEq, Repr

/-- The session state the caching functions touch: st.session_state's
data_cache dict and last_cache_update value.  lastCacheUpdate none
models the key being absent (no prior successful fetch). -/
structure CacheState where
  dataCache : List (Int × CacheEntry) := []
  lastCacheUpdate : Option Nat := none
deriving DecidableEq, Repr

/-- should_update_cache: true when no last_cache_update is recorded;
otherwise true exactly when the local hour is at least 20 and the last
update precedes today's 20:00. -/
def should_update_cache (σ : CacheState) (t : Nat) : Bool :=
  match σ.lastCacheUpdate with
  | none => true
  | some last =>
    if 20 ≤ hourOf t then decide (last < today20 t) else false

/-- get_cached_data: look up the current cache key; a hit returns the
stored table and timestamp, a miss returns (none, none). -/
def get_cached_data (σ : CacheState) (t : Nat) :
    Option (List Row) × Option Nat :=
  match σ.dataCache.lookup (cacheKey t) with
  | some e => (some e.data, some e.timestamp)
  | none => (none, none)

/-- set_cached_data: store the table under the current cache key with
the current timestamp, record last_cache_update, then delete every key
that is neither the current key nor yesterday's calendar date
(the code tests key.endswith(str(yesterday)); keys are
"steam_data_" ++ a fixed-width ISO date, so the suffix test is date
equality). -/
def set_cached_data (σ : CacheState) (t : Nat) (data : List Row) :
    CacheState :=
  let key := cacheKey t
  let stored := (key, CacheEntry.mk data t) ::
    σ.dataCache.filter (fun p => p.1 != key)
  let yesterday : Int := (dayOf t : Int) - 1
  { dataCache := stored.filter (fun p => p.1 == key || p.1 == yesterday)
    lastCacheUpdate := some t }

/-- The guard of load_steam_data that serves the cache without
fetching: cached_data is not None and not should_update_cache(). -/
def servesCache (σ : CacheState) (t : Nat) : Bool :=
  (get_cached_data σ t).1.isSome && ! should_update_cache σ t

/-- Outcome of the network fetch inside load_steam_data.  success
carries the rows of the Steam_Master sheet after type conversion;
badCredentials covers invalid JSON and missing required fields;
worksheetNotFound is the inner gspread.WorksheetNotFound handler;
exn is any other exception reaching the outer handler. -/
inductive FetchOutcome where
  | success (rows : List Row)
  | badCredentials
  | worksheetNotFound
  | exn
deriving DecidableEq, Repr

/-- load_steam_data: serve the cache when it is valid; otherwise fetch.
A fetch that raises in the outer handler falls back to cached_data when
that is not None; credential errors and a missing worksheet return an
empty frame with no fallback; a successful but empty fetch returns an
empty frame without caching it; a successful non-empty fetch is cached
and returned. -/
def load_steam_data (σ : CacheState) (t : Nat) (fetch : FetchOutcome) :
    List Row × CacheState :=
  let cached := (get_cached_data σ t).1
  if servesCache σ t then (cached.getD [], σ)
  else
    match fetch with
    | .success rows =>
      if rows = [] then ([], σ) else (rows, set_cached_data σ t rows)
    | .badCredentials => ([], σ)
    | .worksheetNotFound => ([], σ)
    | .exn =>
      match cached with
      | some tbl => (tbl, σ)
      | none => ([], σ)

/-- The 20:00 boundary most recently passed at time t: today's 20:00
when the local hour is at least 20, else yesterday's. -/
def lastBoundary (t : Nat) : Int := cacheKey t * 1440 + 1200

/-- The refresh predicate as the specification words it: refresh when
no prior fetch is recorded, or when the last recorded fetch precedes
the most recent 20:00 boundary already passed relative to now.  Named
after the spec for comparison against should_update_cache. -/
def specShouldRefresh (σ : CacheState) (t : Nat) : Bool :=
  match σ.lastCacheUpdate with
  | none => true
  | some last => decide ((last : Int) < lastBoundary t)

/-! ## Identity and curation (favorites) -/

/-- Models Python hash applied to the game name: some deterministic
integer-valued function of the string.  Within one interpreter process
the Python hash is a fixed function of its argument; the particular
values are irrelevant to every claim, only determinism is used. -/
def hashName (s : String) : Int :=
  s.foldl (fun h c => h * 31 + (c.toNat : Int)) 7

/-- get_game_id: the numeric AppID when present (pd.notna), otherwise
the hash of the name. -/
def get_game_id (g : Row) : Int :=
  match g.appID with
  | some n => n
  | none => hashName g.name

/-- One entry of st.session_state.favorites or of a custom list:
the dict with keys id, name, dateAdded. -/
structure FavEntry where
  id : Int
  name : String
  dateAdded : String
deriving DecidableEq, Repr

/-- is_game_favorited: any favorite entry has the given id. -/
def is_game_favorited (favs : List FavEntry) (gameId : Int) : Bool :=
  favs.any (fun fav => fav.id == gameId)

/-- The add branch of create_favorite_button: append an entry holding
the game id, name and the current timestamp string. -/
def addFavorite (favs : List FavEntry) (g : Row) (now : String) :
    List FavEntry :=
  favs ++ [⟨get_game_id g, g.name, now⟩]

/-! ## Adult-content classification and filter -/

/-- The fixed adult tag list of is_adult_content (the code holds it in
a set; only membership is ever used). -/
def adultTags : List String :=
  ["sexual content", "nudity", "mature", "nsfw", "adult content",
   "hentai", "sexual", "erotic", "adult", "sex", "nude"]

/-- is_adult_content: a missing or empty CommunityTags cell is not
adult; otherwise the game is adult when any tag of the fixed list
occurs as a substring of the lowercased tags string. -/
def is_adult_content (r : Row) : Bool :=
  match r.communityTags with
  | none => false
  | some s => if s = "" then false else
      adultTags.any (fun tag => strContains s tag)

/-- The adult-content stage of main: with the checkbox off, keep only
rows that are not adult; with it on, the stage is skipped. -/
def applyAdultFilter (showAdultContent : Bool) (c : Catalog) : Catalog :=
  if showAdultContent then c
  else { c with rows := c.rows.filter (fun r => ! is_adult_content r) }

/-! ## Keyword search -/

/-- A description field that counts: pd.notna and nonblank after
strip. -/
def descCandidate (o : Option String) : Option String :=
  match o with
  | some s => if s.trim = "" then none else some s
  | none => none

/-- The first usable description field, in the priority order
DetailedDescription, AboutTheGame, ShortDescription. -/
def firstDesc (r : Row) : Option String :=
  (descCandidate r.detailedDescription).orElse fun _ =>
    (descCandidate r.aboutTheGame).orElse fun _ =>
      descCandidate r.shortDescription

/-- A Genres or Categories cell contributes when present and
nonblank. -/
def optPart (o : Option String) : List String :=
  match o with
  | some s => if s.trim = "" then [] else [s]
  | none => []

/-- create_description_search_text: name, then the first usable
description, then genres and categories, joined by spaces and
lowercased. -/
def create_description_search_text (r : Row) : String :=
  (String.intercalate " "
    ([r.name] ++
     (match firstDesc r with | some d => [d] | none => []) ++
     optPart r.genres ++ optPart r.categories)).toLower

/-- filter_games_by_keywords: split the comma-separated phrase on
commas, trim and lowercase, drop blanks; keep rows whose search text
contains any keyword.  An empty phrase, an empty frame or an
all-blank keyword list leaves the frame unchanged. -/
def filter_games_by_keywords (keywords : String) (c : Catalog) :
    Catalog :=
  if keywords = "" ∨ c.rows = [] then c
  else
    let keywordList :=
      ((keywords.splitOn ",").map (fun k => k.trim.toLower)).filter
        (fun k => k ≠ "")
    if keywordList = [] then c
    else { c with rows := c.rows.filter (fun r =>
      keywordList.any (fun k =>
        strContains (create_description_search_text r) k)) }

/-! ## Tag include and exclude filters -/

/-- The include-tags stage of main: when tags are selected and the
CommunityTags column exists, keep rows containing ALL selected tags as
case-insensitive substrings of the astype(str) tags cell. -/
def applyIncludeTags (sel : List String) (c : Catalog) : Catalog :=
  if sel ≠ [] ∧ c.hasCommunityTags then
    { c with rows := c.rows.filter (fun r =>
        sel.all (fun tag => strContains (rowTagsStr r) tag)) }
  else c

/-- The exclude-tags stage of main: when tags are selected and the
CommunityTags column exists, drop rows containing ANY excluded tag as
a case-insensitive substring of the astype(str) tags cell. -/
def applyExcludeTags (ex : List String) (c : Catalog) : Catalog :=
  if ex ≠ [] ∧ c.hasCommunityTags then
    { c with rows := c.rows.filter (fun r =>
        ! ex.any (fun tag => strContains (rowTagsStr r) tag)) }
  else c

/-! ## Demo, release-status and favorites filters -/

/-- The demo stage of main.  The code indexes filtered_df with the
Demo and IsDemo columns without testing df.columns first, so a frame
missing either column raises a KeyError, modelled as Except.error. -/
def applyDemoFilter (demoFilter : String) (c : Catalog) :
    Except String Catalog :=
  if demoFilter = "Has Demo" then
    if ! c.hasDemo then .error "KeyError: Demo"
    else if ! c.hasIsDemo then .error "KeyError: IsDemo"
    else .ok { c with rows := c.rows.filter (fun r => r.demo || r.isDemo) }
  else .ok c

/-- The selectbox label to internal status value map of main. -/
def statusMap (choice : String) : Option String :=
  if choice = "Released" then some "released"
  else if choice = "Coming Soon" then some "coming_soon"
  else if choice = "Distant Future" then some "distant_future"
  else none

/-- astype(str) applied to a ReleaseStatus cell. -/
def rowStatusStr (r : Row) : String :=
  match r.releaseStatus with
  | some s => s
  | none => "nan"

/-- The release-status stage of main: guarded by the choice not being
All and the ReleaseStatus column existing; keeps rows whose lowercased
astype(str) status equals the mapped target. -/
def applyReleaseStatusFilter (choice : String) (c : Catalog) : Catalog :=
  if choice ≠ "All" ∧ c.hasReleaseStatus then
    match statusMap choice with
    | some target =>
      { c with rows := c.rows.filter (fun r =>
          (rowStatusStr r).toLower == target) }
    | none => c
  else c

/-- filter_by_favorites_and_lists.  Favorites: keep rows whose derived
id is among the favorite ids, or an empty frame when there are no
favorites.  Custom List: likewise against the named list, or an empty
frame when the list is missing or empty.  Anything else returns the
frame unchanged.  (The code returns a fresh pd.DataFrame() for the
empty cases; main only reads .rows of an empty result, so the column
flags are kept.) -/
def filter_by_favorites_and_lists (favs : List FavEntry)
    (customLists : List (String × List FavEntry))
    (filterType : String) (selectedList : Option String)
    (c : Catalog) : Catalog :=
  if filterType = "Favorites" then
    let favoriteIds := favs.map (fun fav => fav.id)
    if favoriteIds ≠ [] then
      { c with rows := c.rows.filter (fun r =>
          favoriteIds.contains (get_game_id r)) }
    else { c with rows := [] }
  else if filterType = "Custom List" ∧ selectedList.isSome then
    match selectedList.bind (fun n => customLists.lookup n) with
    | some entries =>
      let listIds := entries.map (fun e => e.id)
      if listIds ≠ [] then
        { c with rows := c.rows.filter (fun r =>
            listIds.contains (get_game_id r)) }
      else { c with rows := [] }
    | none => { c with rows := [] }
  else c

/-! ## Sort stage -/

/-- Comparator of the Date Added (Newest First) option:
sort_values(by DateAdded then Name, descending then ascending,
na_position last). -/
def newestFirstLE (r1 r2 : Row) : Bool :=
  match r1.dateAdded, r2.dateAdded with
  | some a, some b =>
    if a = b then decide (r1.name ≤ r2.name) else decide (b < a)
  | some _, none => true
  | none, some _ => false
  | none, none => decide (r1.name ≤ r2.name)

/-- Comparator of the Date Added (Oldest First) option:
ascending with missing dates first. -/
def oldestFirstLE (r1 r2 : Row) : Bool :=
  match r1.dateAdded, r2.dateAdded with
  | some a, some b =>
    if a = b then decide (r1.name ≤ r2.name) else decide (a < b)
  | some _, none => false
  | none, some _ => true
  | none, none => decide (r1.name ≤ r2.name)

/-- The helper _sort_order column of the Release Status option:
status_order.get(value, 3). -/
def statusSortKey (r : Row) : Nat :=
  match r.releaseStatus with
  | some s =>
    if s = "released" then 0
    else if s = "coming_soon" then 1
    else if s = "distant_future" then 2
    else 3
  | none => 3

/-- Comparator of the Release Status option: _sort_order ascending,
then Name ascending. -/
def releaseStatusLE (r1 r2 : Row) : Bool :=
  if statusSortKey r1 = statusSortKey r2 then decide (r1.name ≤ r2.name)
  else decide (statusSortKey r1 < statusSortKey r2)

/-- The sort stage of main.  Empty frames are not sorted; the two Date
Added options index the DateAdded column unconditionally, so a frame
missing it raises a KeyError; the Release Status option is guarded by
a df.columns test; an unrecognized option falls through every branch
unchanged.  Row order is rendered with a stable merge sort: pandas
documents its multi-column sorts (both Date Added options and Release
Status) as the stable lexsort.  For the single-column Name sorts the
default pandas algorithm is an unstable quicksort whose ordering of
equal keys is unspecified; the stable sort used here fixes one of its
admissible outcomes, and nothing proved about tie order of the Name
sorts should be read back onto the program. -/
def applySortStage (sortOption : String) (c : Catalog) :
    Except String Catalog :=
  if c.rows = [] then .ok c
  else if sortOption = "Date Added (Newest First)" then
    if ! c.hasDateAdded then .error "KeyError: DateAdded"
    else .ok { c with rows := c.rows.mergeSort newestFirstLE }
  else if sortOption = "Date Added (Oldest First)" then
    if ! c.hasDateAdded then .error "KeyError: DateAdded"
    else .ok { c with rows := c.rows.mergeSort oldestFirstLE }
  else if sortOption = "Name (A-Z)" then
    .ok { c with rows :=
      c.rows.mergeSort (fun a b => decide (a.name ≤ b.name)) }
  else if sortOption = "Name (Z-A)" then
    .ok { c with rows :=
      c.rows.mergeSort (fun a b => decide (b.name ≤ a.name)) }
  else if sortOption = "Release Status" then
    if c.hasReleaseStatus then
      .ok { c with rows := c.rows.mergeSort releaseStatusLE }
    else .ok c
  else .ok c

/-- The sidebar selections main feeds into the filter and sort
stages. -/
structure FilterSelections where
  keywordSearch : String := ""
  selectedTags : List String := []
  excludedTags : List String := []
  demoFilter : String := "All"
  releaseStatusFilter : String := "All"
  showAdultContent : Bool := false
  selectedListFilter : String := "All"
  sortOption : String := "Date Added (Newest First)"
deriving DecidableEq, Repr

/-- The filter and sort pipeline of main, in source order: keyword
search, include tags, exclude tags, demo, release status, adult
content, favorites and lists, then the sort stage. -/
def applyFiltersAndSort (sel : FilterSelections) (favs : List FavEntry)
    (customLists : List (String × List FavEntry)) (c : Catalog) :
    Except String Catalog :=
  let c1 := if sel.keywordSearch ≠ "" then
    filter_games_by_keywords sel.keywordSearch c else c
  let c2 := applyIncludeTags sel.selectedTags c1
  let c3 := applyExcludeTags sel.excludedTags c2
  match applyDemoFilter sel.demoFilter c3 with
  | .error e => .error e
  | .ok c4 =>
    let c5 := applyReleaseStatusFilter sel.releaseStatusFilter c4
    let c6 := applyAdultFilter sel.showAdultContent c5
    let c7 :=
      if sel.selectedListFilter ≠ "All" then
        if sel.selectedListFilter = "Favorites" then
          filter_by_favorites_and_lists favs customLists "Favorites"
            none c6
        else
          filter_by_favorites_and_lists favs customLists "Custom List"
            (some sel.selectedListFilter) c6
      else c6
    applySortStage sel.sortOption c7

/-! ## Helper lemmas -/

/-- Two successive filters of a list commute. -/
theorem filter_swap {α : Type} (p q : α → Bool) (l : List α) :
    (l.filter p).filter q = (l.filter q).filter p := by
  induction l with
  | nil => rfl
  | cons a l ih =>
    by_cases hp : p a <;> by_cases hq : q a <;>
      simp [List.filter_cons, hp, hq, ih]

/-- A list filtered by a predicate satisfies it everywhere. -/
theorem filter_all_self {α : Type} (p : α → Bool) (l : List α) :
    (l.filter p).all p = true := by
  induction l with
  | nil => rfl
  | cons a l ih =>
    by_cases hp : p a <;> simp [List.filter_cons, hp, ih]

/-- Association-list lookup misses when no stored key matches. -/
theorem lookup_eq_none_of_all_ne (l : List (Int × CacheEntry)) (k : Int)
    (h : ∀ p ∈ l, p.1 ≠ k) : l.lookup k = none := by
  induction l with
  | nil => rfl
  | cons p l ih =>
    have hk : (k == p.1) = false := by
      have := h p (by simp)
      simp [Ne.symm this]
    simp [List.lookup, hk]
    intro a b hab hka
    exact h (a, b) (by simp [hab]) hka.symm

/-- should_update_cache right after set_cached_data at the same time is
false: the recorded timestamp never precedes the 20:00 mark of its own
day when its hour is at least 20. -/
theorem shouldUpdate_after_set (σ : CacheState) (t : Nat)
    (d : List Row) :
    should_update_cache (set_cached_data σ t d) t = false := by
  have h : should_update_cache (set_cached_data σ t d) t =
      if 20 ≤ hourOf t then decide (t < today20 t) else false := rfl
  rw [h]
  by_cases h20 : 20 ≤ hourOf t
  · rw [if_pos h20]
    simp only [decide_eq_false_iff_not, Nat.not_lt]
    unfold today20 dayOf
    unfold hourOf at h20
    omega
  · rw [if_neg h20]

/-- Unfolded form of should_update_cache when a last update exists. -/
theorem shouldUpdate_of_some (σ : CacheState) (t : Nat) (last : Nat)
    (h : σ.lastCacheUpdate = some last) :
    should_update_cache σ t = true ↔
      20 ≤ hourOf t ∧ last < today20 t := by
  unfold should_update_cache
  rw [h]
  by_cases h20 : 20 ≤ hourOf t
  · simp [h20]
  · simp [h20]

/-- Every key surviving set_cached_data is the current cache key or the
calendar date before the put. -/
theorem mem_set_cached (σ : CacheState) (t : Nat) (d : List Row)
    (p : Int × CacheEntry) (hp : p ∈ (set_cached_data σ t d).dataCache) :
    p.1 = cacheKey t ∨ p.1 = (dayOf t : Int) - 1 := by
  simp only [set_cached_data, List.mem_filter, Bool.or_eq_true,
    beq_iff_eq] at hp
  exact hp.2

/-- The calendar date before a put is the current window date or the
one before it. -/
theorem yesterday_cases (t : Nat) :
    (dayOf t : Int) - 1 = cacheKey t ∨
      (dayOf t : Int) - 1 = cacheKey t - 1 := by
  unfold cacheKey
  by_cases h20 : 20 ≤ hourOf t
  · rw [if_pos h20]; right; rfl
  · rw [if_neg h20]; left; rfl

/-! ## Concrete inputs used by the claim theorems -/

/-- A plain catalog row. -/
def rowA : Row := { appID := some 1, name := "A" }

/-- A session state whose only fetch was recorded at minute 100
(day 0, 01:40). -/
def sigC1 : CacheState := { dataCache := [], lastCacheUpdate := some 100 }

/-- A session state holding one entry stored in window 0 (put at day 0,
20:00). -/
def sigC2 : CacheState :=
  { dataCache := [(0, ⟨[rowA], 1200⟩)], lastCacheUpdate := some 1200 }

/-! ## Claims -/

/-- C1 (corrected): should_update_cache does return true when no prior
fetch is recorded, and false immediately after set_cached_data at the
same now; but when a last update exists it returns true exactly when
the local hour is at least 20 and the last update precedes today's
20:00 — when now is before 20:00 it returns false regardless of how
old the last update is. -/
theorem C1_refresh_rule :
    (∀ (σ : CacheState) (t : Nat), σ.lastCacheUpdate = none →
      should_update_cache σ t = true) ∧
    (∀ (σ : CacheState) (t last : Nat), σ.lastCacheUpdate = some last →
      (should_update_cache σ t = true ↔
        20 ≤ hourOf t ∧ last < today20 t)) ∧
    (∀ (σ : CacheState) (t : Nat) (d : List Row),
      should_update_cache (set_cached_data σ t d) t = false) := by
  refine ⟨?_, ?_, ?_⟩
  · intro σ t h
    unfold should_update_cache
    rw [h]
  · intro σ t last h
    exact shouldUpdate_of_some σ t last h
  · intro σ t d
    exact shouldUpdate_after_set σ t d

/-- C1 witness: the three parts at concrete inputs. -/
theorem C1_refresh_rule_witness :
    should_update_cache { dataCache := [], lastCacheUpdate := none } 0 =
      true ∧
    (should_update_cache sigC1 2700 = true ↔
      20 ≤ hourOf 2700 ∧ 100 < today20 2700) ∧
    should_update_cache (set_cached_data sigC1 4110 [rowA]) 4110 =
      false :=
  ⟨C1_refresh_rule.1 _ 0 rfl, C1_refresh_rule.2.1 sigC1 2700 100 rfl,
   C1_refresh_rule.2.2 sigC1 4110 [rowA]⟩

/-- C1 counterexample: at now = minute 3480 (day 2, 10:00) the most
recent passed 20:00 boundary is minute 2640 (day 1, 20:00); the last
recorded fetch at minute 100 precedes it, so the claim requires a
refresh, yet should_update_cache returns false because the hour is
before 20. -/
theorem C1_before20_no_refresh :
    lastBoundary 3480 = 2640 ∧ (100 : Int) < 2640 ∧
    specShouldRefresh sigC1 3480 = true ∧
    should_update_cache sigC1 3480 = false :=
  ⟨by decide, by decide, rfl, rfl⟩

/-- C2 (corrected): the degraded fallback of load_steam_data does fire
for an entry stored under the CURRENT window key: whenever the current
key is present, a fetch ending in the outer exception handler returns
the stored table. -/
theorem C2_fallback_current_window (σ : CacheState) (t : Nat)
    (e : CacheEntry)
    (h : σ.dataCache.lookup (cacheKey t) = some e) :
    (load_steam_data σ t .exn).1 = e.data := by
  have hc : (get_cached_data σ t).1 = some e.data := by
    simp [get_cached_data, h]
  by_cases hs : should_update_cache σ t = true
  · simp [load_steam_data, servesCache, hc, hs]
  · simp [load_steam_data, servesCache, hc, hs]

/-- C2 witness: the fallback at a concrete state holding the current
window key. -/
theorem C2_fallback_current_window_witness :
    (load_steam_data
      { dataCache := [(2, ⟨[rowA], 4110⟩)], lastCacheUpdate := some 4110 }
      4110 .exn).1 = [rowA] :=
  C2_fallback_current_window _ 4110 ⟨[rowA], 4110⟩ rfl

/-- C2 counterexample: sigC2 stores a table under window key 0, a
prior window relative to now = minute 4110 (day 2, 20:30, window
key 2).  A failed fetch returns the empty table, not the stored one:
get_cached_data only consults the current window key. -/
theorem C2_stale_entry_not_served :
    sigC2.dataCache = [(0, ⟨[rowA], 1200⟩)] ∧
    cacheKey 4110 = 2 ∧
    load_steam_data sigC2 4110 .exn = ([], sigC2) ∧
    ([] : List Row) ≠ [rowA] :=
  ⟨rfl, by decide, rfl, by decide⟩

/-- C3 (confirmed): the cache key is today's date when the local hour
is at least 20 and yesterday's date otherwise; it agrees on any two
times of one calendar day on the same side of 20:00; it advances by
one every 24 hours; and a one-minute step changes it exactly when the
step lands on a 20:00 mark. -/
theorem C3_window_key :
    (∀ t : Nat, cacheKey t =
      if 20 ≤ hourOf t then (dayOf t : Int) else (dayOf t : Int) - 1) ∧
    (∀ t u : Nat, dayOf t = dayOf u → (20 ≤ hourOf t ↔ 20 ≤ hourOf u) →
      cacheKey t = cacheKey u) ∧
    (∀ t : Nat, cacheKey (t + 1440) = cacheKey t + 1) ∧
    (∀ t : Nat,
      (cacheKey (t + 1) = cacheKey t ∧ (t + 1) % 1440 ≠ 1200) ∨
      (cacheKey (t + 1) = cacheKey t + 1 ∧ (t + 1) % 1440 = 1200)) := by
  refine ⟨fun t => rfl, ?_, ?_, ?_⟩
  · intro t u hd hh
    unfold cacheKey
    by_cases h20 : 20 ≤ hourOf t
    · rw [if_pos h20, if_pos (hh.mp h20), hd]
    · rw [if_neg h20, if_neg (fun hu => h20 (hh.mpr hu)), hd]
  · intro t
    simp only [cacheKey, dayOf, hourOf]
    split <;> split <;> omega
  · intro t
    simp only [cacheKey, dayOf, hourOf]
    split <;> split <;> omega

/-- C3 witness: two times of one day on the same side of the cutover
share the key, and the key steps by one across 24 hours. -/
theorem C3_window_key_witness :
    cacheKey 1230 = cacheKey 1290 ∧
    cacheKey (1199 + 1440) = cacheKey 1199 + 1 :=
  ⟨C3_window_key.2.1 1230 1290 rfl (by decide),
   C3_window_key.2.2.1 1199⟩

/-- C4 (confirmed): after any set_cached_data, every key other than
the current window key and the one before it is gone; a put two
windows after an earlier put evicts the earlier window, so reading it
back yields none; and every retained key is the current window key or
its predecessor. -/
theorem C4_eviction :
    (∀ (σ : CacheState) (t : Nat) (d : List Row) (k : Int),
      k ≠ cacheKey t → k ≠ cacheKey t - 1 →
      ((set_cached_data σ t d).dataCache).lookup k = none) ∧
    (∀ (σ : CacheState) (t1 t3 : Nat) (d1 d3 : List Row),
      cacheKey t3 = cacheKey t1 + 2 →
      get_cached_data
        (set_cached_data (set_cached_data σ t1 d1) t3 d3) t1 =
        (none, none)) ∧
    (∀ (σ : CacheState) (t : Nat) (d : List Row),
      ∀ p ∈ (set_cached_data σ t d).dataCache,
        p.1 = cacheKey t ∨ p.1 = cacheKey t - 1) := by
  have hmem : ∀ (σ : CacheState) (t : Nat) (d : List Row),
      ∀ p ∈ (set_cached_data σ t d).dataCache,
        p.1 = cacheKey t ∨ p.1 = cacheKey t - 1 := by
    intro σ t d p hp
    rcases mem_set_cached σ t d p hp with h | h
    · exact Or.inl h
    · rcases yesterday_cases t with hy | hy
      · exact Or.inl (h.trans hy)
      · exact Or.inr (h.trans hy)
  have hnone : ∀ (σ : CacheState) (t : Nat) (d : List Row) (k : Int),
      k ≠ cacheKey t → k ≠ cacheKey t - 1 →
      ((set_cached_data σ t d).dataCache).lookup k = none := by
    intro σ t d k h1 h2
    apply lookup_eq_none_of_all_ne
    intro p hp hk
    rcases hmem σ t d p hp with h | h
    · exact h1 (hk ▸ h)
    · exact h2 (hk ▸ h)
  refine ⟨hnone, ?_, hmem⟩
  intro σ t1 t3 d1 d3 h13
  unfold get_cached_data
  rw [hnone _ t3 d3 (cacheKey t1) (by omega) (by omega)]

/-- C4 witness: a put in window 0 followed by a put in window 2 leaves
the window-0 read empty, and lookups outside the two retained keys
miss. -/
theorem C4_eviction_witness :
    get_cached_data
      (set_cached_data (set_cached_data { dataCache := [] } 1200 [rowA])
        4080 [rowA]) 1200 = (none, none) ∧
    ((set_cached_data { dataCache := [] } 1200 [rowA]).dataCache).lookup
      5 = none :=
  ⟨C4_eviction.2.1 _ 1200 4080 [rowA] [rowA] (by decide),
   C4_eviction.1 _ 1200 [rowA] 5 (by decide) (by decide)⟩

/-- A catalog whose sheet has no Demo and no IsDemo column. -/
def catalogNoDemo : Catalog :=
  { hasDemo := false, hasIsDemo := false, rows := [rowA] }

/-- Sidebar selections with the demo filter set to Has Demo. -/
def selHasDemo : FilterSelections := { demoFilter := "Has Demo" }

/-- C5 (code bug): on a catalog missing the Demo column, selecting the
Has Demo filter makes the pipeline raise a KeyError instead of
filtering — the demo stage indexes the columns without the df.columns
guard every other stage has.  The second conjunct checks the part of
the claim the code does satisfy: an unrecognized sort option leaves
the frame unchanged. -/
theorem C5_demo_filter_raises :
    applyFiltersAndSort selHasDemo [] [] catalogNoDemo =
      Except.error "KeyError: Demo" ∧
    applySortStage "Release Date" catalogNoDemo =
      Except.ok catalogNoDemo :=
  ⟨rfl, rfl⟩

/-- The row favorited in the C6 scenario. -/
def row570 : Row := { appID := some 570, name := "Dota 2" }

/-- The same unmodified row as produced by a later fetch. -/
def row570Refetch : Row := { appID := some 570, name := "Dota 2" }

/-- C6 (confirmed): when the AppID failed numeric coercion the derived
key is a function of the name alone, hence identical for equal names
across fetches; and after favoriting the row with key 570, the same
row from a fresh fetch is still favorited. -/
theorem C6_stable_identity :
    (∀ g : Row, g.appID = none → get_game_id g = hashName g.name) ∧
    (∀ g gNew : Row, g.appID = none → gNew.appID = none →
      g.name = gNew.name → get_game_id g = get_game_id gNew) ∧
    is_game_favorited (addFavorite [] row570 "2024-05-01T12:00:00")
      570 = true ∧
    is_game_favorited (addFavorite [] row570 "2024-05-01T12:00:00")
      (get_game_id row570Refetch) = true := by
  have hbase : ∀ g : Row, g.appID = none →
      get_game_id g = hashName g.name := by
    intro g h
    unfold get_game_id
    rw [h]
  refine ⟨hbase, ?_, rfl, rfl⟩
  intro g gNew h1 h2 hn
  rw [hbase g h1, hbase gNew h2, hn]

/-- C6 witness: the fallback key at concrete rows that share a name
but were fetched separately. -/
theorem C6_stable_identity_witness :
    get_game_id { appID := none, name := "Orphan" } =
      hashName "Orphan" ∧
    get_game_id { appID := none, name := "Orphan" } =
      get_game_id { appID := none, name := "Orphan", demo := true } :=
  ⟨C6_stable_identity.1 { appID := none, name := "Orphan" } rfl,
   C6_stable_identity.2.1 _ _ rfl rfl rfl⟩

/-- A row carrying both an included and an excluded tag. -/
def rowRPGHorror : Row :=
  { appID := some 3, name := "G", communityTags := some "RPG, Horror" }

/-- A catalog holding only that row. -/
def catalogRPGHorror : Catalog := { rows := [rowRPGHorror] }

/-- C8 (confirmed): the include-tags and exclude-tags stages commute
on every catalog and every pair of selections, and the row tagged
"RPG, Horror" is excluded under include ["RPG"], exclude ["Horror"]
in either order. -/
theorem C8_tag_filters_commute :
    (∀ (sel ex : List String) (c : Catalog),
      applyExcludeTags ex (applyIncludeTags sel c) =
        applyIncludeTags sel (applyExcludeTags ex c)) ∧
    (applyExcludeTags ["Horror"]
      (applyIncludeTags ["RPG"] catalogRPGHorror)).rows = [] ∧
    (applyIncludeTags ["RPG"]
      (applyExcludeTags ["Horror"] catalogRPGHorror)).rows = [] := by
  refine ⟨?_, by decide, by decide⟩
  intro sel ex c
  obtain ⟨ct, d1, d2, d3, d4, rows⟩ := c
  by_cases hs : sel = []
  · simp [applyIncludeTags, hs]
  · by_cases he : ex = []
    · simp [applyExcludeTags, he]
    · cases ct
      · simp [applyIncludeTags, applyExcludeTags]
      · simp only [applyIncludeTags, applyExcludeTags, hs, he,
          ne_eq, not_false_iff, true_and, if_pos]
        simp only [Catalog.mk.injEq, true_and]
        exact filter_swap _ _ rows

/-- A row with the tags of the C9 scenario. -/
def rowSexualIndie : Row :=
  { appID := some 4, name := "S",
    communityTags := some "Sexual Content, Indie" }

/-- A catalog holding only that row. -/
def catalogAdult : Catalog := { rows := [rowSexualIndie] }

/-- C9 (confirmed): a row with a tags string is adult exactly when
some member of the fixed list occurs in it case-insensitively; with
the override on the stage is the identity; with it off no adult row
survives; and the "Sexual Content, Indie" row is adult, excluded by
default and included under the override. -/
theorem C9_adult_filter :
    (∀ (r : Row) (s : String), r.communityTags = some s →
      (is_adult_content r = true ↔
        adultTags.any (fun tag => strContains s tag) = true)) ∧
    (∀ c : Catalog, applyAdultFilter true c = c) ∧
    (∀ c : Catalog,
      (applyAdultFilter false c).rows.all
        (fun r => ! is_adult_content r) = true) ∧
    is_adult_content rowSexualIndie = true ∧
    (applyAdultFilter false catalogAdult).rows = [] ∧
    (applyAdultFilter true catalogAdult).rows = [rowSexualIndie] := by
  refine ⟨?_, ?_, ?_, by decide, by decide, by decide⟩
  · intro r s h
    have hr : is_adult_content r =
        if s = "" then false
        else adultTags.any fun tag => strContains s tag := by
      simp [is_adult_content, h]
    rw [hr]
    by_cases hs : s = ""
    · subst hs
      have hempty : (adultTags.any fun tag => strContains "" tag) =
          false := by decide
      simp [hempty]
    · rw [if_neg hs]
  · intro c
    unfold applyAdultFilter
    rfl
  · intro c
    unfold applyAdultFilter
    rw [if_neg (by decide)]
    exact filter_all_self _ c.rows

/-- C9 witness: the substring characterization and the identity of the
override at the concrete catalog. -/
theorem C9_adult_filter_witness :
    (is_adult_content rowSexualIndie = true ↔
      adultTags.any
        (fun tag => strContains "Sexual Content, Indie" tag) = true) ∧
    applyAdultFilter true catalogAdult = catalogAdult :=
  ⟨C9_adult_filter.1 rowSexualIndie "Sexual Content, Indie" rfl,
   C9_adult_filter.2.1 catalogAdult⟩

/-- C10 (confirmed): when the cache would not have been served, a
fetch returning zero rows yields the empty table and leaves the whole
session cache state untouched, so an immediately repeated call is in
the same position — it attempts a fetch again rather than serving any
cached empty table. -/
theorem C10_empty_fetch_is_frame (σ : CacheState) (t : Nat)
    (h : servesCache σ t = false) :
    load_steam_data σ t (.success []) = ([], σ) ∧
    servesCache (load_steam_data σ t (.success [])).2 t = false := by
  have hl : load_steam_data σ t (.success []) = ([], σ) := by
    simp [load_steam_data, h]
  refine ⟨hl, ?_⟩
  rw [hl]
  exact h

/-- C10 witness: the empty-fetch frame property at the fresh session
state. -/
theorem C10_empty_fetch_is_frame_witness :
    load_steam_data { dataCache := [] } 0 (.success []) =
      ([], { dataCache := [] }) ∧
    servesCache
      (load_steam_data { dataCache := [] } 0 (.success [])).2 0 =
      false :=
  C10_empty_fetch_is_frame { dataCache := [] } 0 rfl

end SteamTracker
